import Mathlib

/-!
Shallow embedding of the Air Quality Dashboard frontend
(`frontend/js/api.js`, `frontend/js/app.js`, `frontend/js/charts.js`).

JavaScript numbers that hold small integers (ids, pages, status codes,
years) are modelled as `Int`; pollutant concentrations and percentage
arithmetic are modelled as `Rat` (the values appearing in the spec's
examples are exactly representable, so `Rat` matches the JS float
behaviour on them).  JS `undefined`/`null`-able values become `Option`,
and JS truthiness is made explicit wherever the code branches on it.
-/

namespace AirQuality

/-- One air-quality record as consumed by the frontend
(`commune`, `region`, `annee`, pollutant readings, optional coordinates). -/
structure Record where
  id : Int
  commune : String
  region : String
  annee : Int
  no2 : Option Rat
  pm10 : Option Rat
  pm25 : Option Rat
  o3 : Option Rat
  latitude : Option Rat
  longitude : Option Rat
deriving Repr, DecidableEq

/-- `AppState.filters` from `app.js`: all three fields are strings
(the empty string plays the role of "no filter"). -/
structure Filters where
  region : String
  year : String
  commune : String
deriving Repr, DecidableEq

/-- `AppState.pagination` from `app.js`. -/
structure Pagination where
  page : Int
  pageSize : Int
  total : Int
deriving Repr, DecidableEq

/-- The slice of `AppState` from `app.js` that the record-page logic
touches: the fetched page of records, the pagination cursor and the
active filters. -/
structure AppState where
  data : List Record
  pagination : Pagination
  filters : Filters
deriving Repr, DecidableEq

/-- `Math.ceil(total / pageSize)` as computed in `app.js`
(`setupPagination` / `updatePaginationInfo`): real division followed by
ceiling. -/
def maxPage (p : Pagination) : Int :=
  ⌈(p.total : ℚ) / (p.pageSize : ℚ)⌉

/-! ### Colour thresholds (`getColorForValue`, app.js) -/

structure Threshold where
  low : Rat
  high : Rat
deriving Repr, DecidableEq

/-- The per-pollutant threshold table of `getColorForValue`, including
the `|| { low: 20, high: 40 }` fallback for unknown pollutant keys. -/
def thresholdsFor (pollutant : String) : Threshold :=
  if pollutant = "no2" then ⟨20, 40⟩
  else if pollutant = "pm10" then ⟨15, 45⟩
  else if pollutant = "pm25" then ⟨10, 25⟩
  else if pollutant = "o3" then ⟨60, 100⟩
  else ⟨20, 40⟩

/-- `getColorForValue(value, pollutant)` from `app.js`:
green (`#22c55e`, "good") when `value ≤ low`, yellow (`#f59e0b`,
"moderate") when `value ≤ high`, red (`#ef4444`, "poor") otherwise. -/
def getColorForValue (value : Rat) (pollutant : String) : String :=
  if value ≤ (thresholdsFor pollutant).low then "#22c55e"
  else if value ≤ (thresholdsFor pollutant).high then "#f59e0b"
  else "#ef4444"

/-! ### Trend analysis (`analyzeTrend`, charts.js) -/

/-- One point of a trend series (`{annee, value}`); `value` may be
`null`. -/
structure TrendPoint where
  annee : Int
  value : Option Rat
deriving Repr, DecidableEq

/-- `Number.prototype.toFixed(1)` on the exact rational value: round to
one decimal place (ties away from zero for positive arguments, which is
all `analyzeTrend` feeds it in the spec's examples). -/
def jsToFixed1 (q : Rat) : Rat :=
  (round (q * 10) : Int) / 10

/-- The five classification branches of `analyzeTrend` (charts.js),
in source order, plus the "insufficient data" early return. -/
inductive TrendClass where
  | insufficient
  | strongDecrease
  | slightDecrease
  | strongIncrease
  | slightIncrease
  | stable
deriving Repr, DecidableEq

/-- The branch ladder of `analyzeTrend` on the (already `toFixed(1)`-
rounded, numerically re-coerced) percent change:
`< -10`, `< 0`, `> 10`, `> 0`, else stable. -/
def classifyChange (change : Rat) : TrendClass :=
  if change < -10 then .strongDecrease
  else if change < 0 then .slightDecrease
  else if change > 10 then .strongIncrease
  else if change > 0 then .slightIncrease
  else .stable

/-- The percent-change computation of `analyzeTrend` (charts.js): guard
on fewer than two points, drop `null` values, guard again, then
`((last - first) / first * 100).toFixed(1)`. -/
def analyzeTrendChange (trendData : List TrendPoint) : Option Rat :=
  if trendData.length < 2 then none
  else
    let values := trendData.filterMap (·.value)
    if values.length < 2 then none
    else
      match values with
      | [] => none
      | first :: _ =>
          let last := values.getLast!
          some (jsToFixed1 ((last - first) / first * 100))

/-- `analyzeTrend`'s overall classification of a series: the class taken
by the branch ladder, or `insufficient` on either early return. -/
def analyzeTrendClass (trendData : List TrendPoint) : TrendClass :=
  match analyzeTrendChange trendData with
  | none => .insufficient
  | some c => classifyChange c

/-! ### URI component encoding (`encodeURIComponent`, as used by api.js) -/

/-- The characters `encodeURIComponent` leaves unescaped:
`A-Z a-z 0-9 - _ . ! ~ * ' ( )`. -/
def isUriUnreserved (c : Char) : Bool :=
  (('A' ≤ c ∧ c ≤ 'Z') ∨ ('a' ≤ c ∧ c ≤ 'z') ∨ ('0' ≤ c ∧ c ≤ '9')
    ∨ c = '-' ∨ c = '_' ∨ c = '.' ∨ c = '!' ∨ c = '~' ∨ c = '*'
    ∨ c = (Char.ofNat 39) ∨ c = '(' ∨ c = ')')

/-- Uppercase hexadecimal digit for a nibble. -/
def toHexDigit (n : Nat) : Char :=
  if n < 10 then Char.ofNat (48 + n) else Char.ofNat (55 + n)

/-- The UTF-8 byte sequence of a character (the encoding
`encodeURIComponent` percent-escapes non-ASCII characters through). -/
def utf8Bytes (c : Char) : List Nat :=
  let n := c.toNat
  if n < 128 then [n]
  else if n < 2048 then [192 + n / 64, 128 + n % 64]
  else if n < 65536 then [224 + n / 4096, 128 + n / 64 % 64, 128 + n % 64]
  else [240 + n / 262144, 128 + n / 4096 % 64, 128 + n / 64 % 64, 128 + n % 64]

/-- `%XY` escape of one byte (two uppercase hex nibbles). -/
def percentEncodeByte (b : Nat) : List Char :=
  ['%', toHexDigit (b / 16 % 16), toHexDigit (b % 16)]

/-- `encodeURIComponent(s)`: unreserved characters pass through, every
other character is replaced by the percent-escapes of its UTF-8 bytes. -/
def encodeURIComponent (s : String) : String :=
  ⟨s.toList.flatMap fun c =>
    if isUriUnreserved c then [c] else (utf8Bytes c).flatMap percentEncodeByte⟩

/-! ### JS truthiness for query parameters (`getRecords`, api.js) -/

/-- A JavaScript primitive as it reaches `getRecords`' `params` object:
absent (`undefined`), a string, or a number (the numbers involved are
integers). -/
inductive JsVal where
  | undef
  | str (s : String)
  | num (n : Int)
deriving Repr, DecidableEq

/-- JS truthiness of a `JsVal`: `undefined`, `""` and `0` are falsy. -/
def JsVal.truthy : JsVal → Bool
  | .undef => false
  | .str s => s ≠ ""
  | .num n => n ≠ 0

/-- Stringification applied by `URLSearchParams.append`. -/
def JsVal.asString : JsVal → String
  | .undef => "undefined"
  | .str s => s
  | .num n => toString n

/-- The `params` object of `getRecords(params)` (api.js). -/
structure RecordParams where
  commune : JsVal
  region : JsVal
  annee : JsVal
  page : JsVal
  page_size : JsVal
deriving Repr, DecidableEq

/-- The `URLSearchParams` accumulated by `getRecords`: one `append` per
truthy field, in source order (commune, region, annee, page,
page_size). -/
def getRecordsQueryList (p : RecordParams) : List (String × String) :=
  (if p.commune.truthy then [("commune", p.commune.asString)] else [])
    ++ (if p.region.truthy then [("region", p.region.asString)] else [])
    ++ (if p.annee.truthy then [("annee", p.annee.asString)] else [])
    ++ (if p.page.truthy then [("page", p.page.asString)] else [])
    ++ (if p.page_size.truthy then [("page_size", p.page_size.asString)] else [])

/-- `URLSearchParams.toString()` rendering: `k=v` pairs joined by `&`
(the values the app passes need no form-encoding beyond this). -/
def renderQuery (l : List (String × String)) : String :=
  String.intercalate "&" (l.map fun kv => kv.1 ++ "=" ++ kv.2)

/-- The endpoint string built by `getRecords`: `/records` plus `?` and
the query string only when at least one parameter was appended. -/
def getRecordsEndpoint (p : RecordParams) : String :=
  let queryString := renderQuery (getRecordsQueryList p)
  "/records" ++ (if queryString ≠ "" then "?" ++ queryString else "")

/-! ### Endpoint builders with path identifiers (api.js) -/

/-- `getRecordById(id)` endpoint: raw template interpolation. -/
def getRecordByIdEndpoint (id : String) : String :=
  "/records/" ++ id

/-- `updateRecord(id, _)` endpoint: raw template interpolation. -/
def updateRecordEndpoint (id : String) : String :=
  "/records/" ++ id

/-- `deleteRecord(id)` endpoint: raw template interpolation. -/
def deleteRecordEndpoint (id : String) : String :=
  "/records/" ++ id

/-- `getRegionStats(region, annee)` endpoint: the region path segment is
passed through `encodeURIComponent`; a truthy `annee` becomes a raw
query parameter. -/
def getRegionStatsEndpoint (region : String) (annee : Option String) : String :=
  let queryString := match annee with
    | some a => if a ≠ "" then "?annee=" ++ a else ""
    | none => ""
  "/stats/region/" ++ encodeURIComponent region ++ queryString

/-- `getCommuneStats(commune)` endpoint: the commune path segment is
passed through `encodeURIComponent`. -/
def getCommuneStatsEndpoint (commune : String) : String :=
  "/stats/commune/" ++ encodeURIComponent commune

/-- `getPollutantTrend(pollutant, params)` endpoint: the pollutant path
segment is interpolated raw; truthy `region`/`commune` params are
appended to the query. -/
def getPollutantTrendEndpoint (pollutant : String)
    (region commune : JsVal) : String :=
  let qs := renderQuery
    ((if region.truthy then [("region", region.asString)] else [])
      ++ (if commune.truthy then [("commune", commune.asString)] else []))
  "/trends/" ++ pollutant ++ (if qs ≠ "" then "?" ++ qs else "")

/-! ### `apiFetch` (api.js) -/

/-- A JSON value as returned by `response.json()`.  Arrays are not
needed by any inspected code path (apiFetch only ever reads the
`detail` field of an error body), so they are omitted; numeric display
uses `Rat`'s printing. -/
inductive JsonV where
  | jnull
  | jbool (b : Bool)
  | jnum (q : Rat)
  | jstr (s : String)
  | jobj (fields : List (String × JsonV))

/-- JS truthiness of a JSON value (`errorData.detail || ...`). -/
def JsonV.truthy : JsonV → Bool
  | .jnull => false
  | .jbool b => b
  | .jnum q => q ≠ 0
  | .jstr s => s ≠ ""
  | .jobj _ => true

/-- `String(v)` as applied by `new Error(v)` to the detail value. -/
def JsonV.asMessage : JsonV → String
  | .jnull => "null"
  | .jbool true => "true"
  | .jbool false => "false"
  | .jnum q => toString q
  | .jstr s => s
  | .jobj _ => "[object Object]"

/-- A representative of the engine-specific `TypeError` message thrown
by `null.detail` (the exact wording varies by JS engine; what matters
is that it is neither the detail value nor the generic status
message). -/
def typeErrorNullDetail : String :=
  "Cannot read properties of null (reading detail)"

/-- `errorData.detail`: on an object, the field when it exists; on a
string, number or boolean the primitive auto-boxes and the access
yields `undefined` (absent); on JSON `null` the access itself throws a
`TypeError`. -/
def JsonV.detailAccess : JsonV → Except String (Option JsonV)
  | .jobj fields => .ok (fields.lookup "detail")
  | .jnull => .error typeErrorNullDetail
  | _ => .ok none

/-- What the network did for one `fetch` call: the promise rejected
(connectivity failure), or a response arrived with a status code and a
body whose `json()` parse either succeeds or rejects. -/
inductive FetchOutcome where
  | networkFailure (msg : String)
  | gotResponse (status : Int) (jsonResult : Except String JsonV)

/-- `response.ok`: status in the inclusive range 200–299. -/
def respOk (status : Int) : Bool := 200 ≤ status ∧ status ≤ 299

/-- The generic message `` `HTTP error! status: ${response.status}` ``. -/
def httpGenericMsg (status : Int) : String :=
  "HTTP error! status: " ++ toString status

/-- The `console.error` line `` `API Error [${endpoint}]:` `` emitted by
`apiFetch`'s catch block. -/
def apiErrorLog (endpoint : String) : String :=
  "API Error [" ++ endpoint ++ "]:"

/-- `await response.json().catch(() => ({}))` on a non-ok response: the
parsed body, or the empty object when parsing rejects. -/
def errorBody : Except String JsonV → JsonV
  | .ok v => v
  | .error _ => .jobj []

/-- `apiFetch(endpoint, options)` (api.js): returns the parsed body
(`jnull` for 204 No Content) or, on any failure, the thrown error's
message, paired with the `console.error` lines emitted.  A non-ok
response evaluates `errorData.detail` — which itself throws a
`TypeError` when the parsed body is JSON `null` — and otherwise throws
`errorData.detail || generic`; every thrown error is caught once,
logged with the endpoint, and rethrown. -/
def apiFetch (endpoint : String) (outcome : FetchOutcome) :
    Except String JsonV × List String :=
  match outcome with
  | .networkFailure msg => (.error msg, [apiErrorLog endpoint])
  | .gotResponse status jsonResult =>
      if respOk status then
        if status = 204 then (.ok .jnull, [])
        else
          match jsonResult with
          | .ok v => (.ok v, [])
          | .error e => (.error e, [apiErrorLog endpoint])
      else
        match (errorBody jsonResult).detailAccess with
        | .error te => (.error te, [apiErrorLog endpoint])
        | .ok detail =>
            let msg := match detail with
              | some d => if d.truthy then d.asMessage else httpGenericMsg status
              | none => httpGenericMsg status
            (.error msg, [apiErrorLog endpoint])

/-! ### The state store and its handlers (app.js) -/

/-- Toast variants of `showToast` (app.js). -/
inductive ToastKind where
  | success
  | error
  | info
deriving Repr, DecidableEq

/-- Observable side effects of the app.js handlers: the record fetch
that is issued (with the parameters it carries), the renderers that
run, console logging and toasts. -/
inductive Effect where
  | fetchRecords (params : RecordParams)
  | renderTable
  | renderPaginationInfo
  | renderStatCards
  | renderCharts
  | renderMapMarkers
  | populateFilterOptions
  | logError (msg : String)
  | toast (kind : ToastKind) (msg : String)
deriving Repr, DecidableEq

/-- The argument object `loadRecords` passes to
`AirQualityAPI.getRecords`: the three filter strings, and the numeric
page and page size. -/
def recordsParams (s : AppState) : RecordParams :=
  { commune := .str s.filters.commune
    region := .str s.filters.region
    annee := .str s.filters.year
    page := .num s.pagination.page
    page_size := .num s.pagination.pageSize }

/-- The `{data, total}` payload of a successful `/records` fetch. -/
structure RecordsResult where
  data : List Record
  total : Int
deriving Repr, DecidableEq

/-- `loadRecords()` (app.js), with the awaited fetch's outcome passed
in explicitly.  The outer `Except` is the exception (if any) escaping
the function to its caller: on success the state's `data` and
`pagination.total` are overwritten and the table and pagination info
re-render; on failure the catch block logs, toasts, and swallows — so
the function always returns `.ok`. -/
def loadRecords (s : AppState) (fetchResult : Except String RecordsResult) :
    Except String (AppState × List Effect) :=
  match fetchResult with
  | .ok result =>
      .ok ({ s with
              data := result.data
              pagination := { s.pagination with total := result.total } },
            [.fetchRecords (recordsParams s), .renderTable, .renderPaginationInfo])
  | .error e =>
      .ok (s,
            [.fetchRecords (recordsParams s),
             .logError ("Error loading records: " ++ e),
             .toast .error "Erreur lors du chargement des enregistrements"])

/-- The pre-await mutation of the `filter-region` / `data-region`
change handlers (`setupFilters`, app.js): write the new region and
reset the page to 1. -/
def mutateRegion (s : AppState) (v : String) : AppState :=
  { s with filters := { s.filters with region := v }
           pagination := { s.pagination with page := 1 } }

/-- The pre-await mutation of the `filter-year` change handler. -/
def mutateYear (s : AppState) (v : String) : AppState :=
  { s with filters := { s.filters with year := v }
           pagination := { s.pagination with page := 1 } }

/-- The pre-await mutation of the (debounced) `search-commune` input
handler. -/
def mutateCommune (s : AppState) (v : String) : AppState :=
  { s with filters := { s.filters with commune := v }
           pagination := { s.pagination with page := 1 } }

/-- The dashboard `filter-region` change handler: mutate, await
`loadRecords`, then `updateDashboardStats()` (stat cards) and
`createDashboardCharts()` (charts). -/
def onFilterRegionChange (s : AppState) (v : String)
    (r : Except String RecordsResult) : Except String (AppState × List Effect) :=
  (loadRecords (mutateRegion s v) r).map fun p =>
    (p.1, p.2 ++ [.renderStatCards, .renderCharts])

/-- The dashboard `filter-year` change handler: mutate, await
`loadRecords`, then stat cards and charts. -/
def onFilterYearChange (s : AppState) (v : String)
    (r : Except String RecordsResult) : Except String (AppState × List Effect) :=
  (loadRecords (mutateYear s v) r).map fun p =>
    (p.1, p.2 ++ [.renderStatCards, .renderCharts])

/-- The data-page `data-region` change handler: mutate, then only
`loadRecords`. -/
def onDataRegionChange (s : AppState) (v : String)
    (r : Except String RecordsResult) : Except String (AppState × List Effect) :=
  loadRecords (mutateRegion s v) r

/-- The data-page `search-commune` (debounced) handler: mutate, then
only `loadRecords`. -/
def onCommuneInput (s : AppState) (v : String)
    (r : Except String RecordsResult) : Except String (AppState × List Effect) :=
  loadRecords (mutateCommune s v) r

/-- The state after one in-flight `loadRecords` continuation resolves:
the post-await half of `loadRecords` applied to the current state (the
effects are dropped, only the state is kept). -/
def applyLoadResolution (s : AppState) (r : Except String RecordsResult) :
    AppState :=
  match loadRecords s r with
  | .ok p => p.1
  | .error _ => s

/-- The `btn-prev` click handler (`setupPagination`, app.js): decrement
the page and re-fetch only when `page > 1`.  The boolean records
whether `loadRecords` was called. -/
def onPrevClick (s : AppState) : AppState × Bool :=
  if 1 < s.pagination.page then
    ({ s with pagination := { s.pagination with page := s.pagination.page - 1 } },
      true)
  else (s, false)

/-- The `btn-next` click handler (`setupPagination`, app.js): increment
the page and re-fetch only when `page < Math.ceil(total / pageSize)`. -/
def onNextClick (s : AppState) : AppState × Bool :=
  if s.pagination.page < maxPage s.pagination then
    ({ s with pagination := { s.pagination with page := s.pagination.page + 1 } },
      true)
  else (s, false)

/-! ### Derived observations used by the theorems -/

/-- The keys of the query parameters `getRecords` appends. -/
def queryKeys (p : RecordParams) : List String :=
  (getRecordsQueryList p).map Prod.fst

/-- The parameters of the record fetch a handler issued, if any. -/
def issuedFetch (out : Except String (AppState × List Effect)) :
    Option RecordParams :=
  match out with
  | .ok (_, effs) =>
      effs.findSome? fun e =>
        match e with
        | .fetchRecords p => some p
        | _ => none
  | .error _ => none

/-- Characters that may legitimately appear in a percent-encoded path
segment: unreserved characters and the escape marker `%`. -/
def segmentSafeChar (c : Char) : Bool :=
  isUriUnreserved c ∨ c = '%'

/-! ## Theorems -/

/-- Every threshold pair in `getColorForValue`'s table (fallback
included) has `low < high`. -/
theorem thresholds_low_lt_high (p : String) :
    (thresholdsFor p).low < (thresholdsFor p).high := by
  unfold thresholdsFor
  split_ifs <;> norm_num

/-- C7: for every value `v` and pollutant `p` (with its `{low, high}`
thresholds, the fallback pair applying to unknown keys),
`getColorForValue` returns the "good" colour `#22c55e` iff `v ≤ low`,
the "moderate" colour `#f59e0b` iff `low < v ≤ high`, and the "poor"
colour `#ef4444` iff `v > high`; in particular for `no2`
(low = 20, high = 40) the values 15, 30 and 50 map to good, moderate
and poor respectively. -/
theorem C7_color_thresholds :
    (∀ (v : Rat) (p : String),
      (getColorForValue v p = "#22c55e" ↔ v ≤ (thresholdsFor p).low) ∧
      (getColorForValue v p = "#f59e0b" ↔
        (thresholdsFor p).low < v ∧ v ≤ (thresholdsFor p).high) ∧
      (getColorForValue v p = "#ef4444" ↔ (thresholdsFor p).high < v)) ∧
    thresholdsFor "no2" = ⟨20, 40⟩ ∧
    getColorForValue 15 "no2" = "#22c55e" ∧
    getColorForValue 30 "no2" = "#f59e0b" ∧
    getColorForValue 50 "no2" = "#ef4444" := by
  refine ⟨fun v p => ?_, by decide, by decide, by decide, by decide⟩
  have hlh := thresholds_low_lt_high p
  unfold getColorForValue
  split_ifs with h1 h2
  · refine ⟨⟨fun _ => h1, fun _ => rfl⟩, ?_, ?_⟩
    · exact ⟨fun h => absurd h (by decide),
        fun hc => absurd h1 (not_le.mpr hc.1)⟩
    · exact ⟨fun h => absurd h (by decide),
        fun hc => absurd h1 (not_le.mpr (lt_trans hlh hc))⟩
  · refine ⟨?_, ⟨fun _ => ⟨not_le.mp h1, h2⟩, fun _ => rfl⟩, ?_⟩
    · exact ⟨fun h => absurd h (by decide), fun hv => absurd hv h1⟩
    · exact ⟨fun h => absurd h (by decide),
        fun hc => absurd h2 (not_le.mpr hc)⟩
  · refine ⟨?_, ?_, ⟨fun _ => not_le.mp h2, fun _ => rfl⟩⟩
    · exact ⟨fun h => absurd h (by decide),
        fun hv => absurd (hv.trans (le_of_lt hlh)) h2⟩
    · exact ⟨fun h => absurd h (by decide), fun hc => absurd hc.2 h2⟩

/-- C8: on the two-year series with values `[30.0, 33.5]`,
`analyzeTrend` computes a percent change that `toFixed(1)`-rounds to
`11.7` (strictly greater than 10), and classifies the series as the
upward "concerning" (`préoccupante`) trend branch reserved for changes
`> 10`. -/
theorem C8_trend_example :
    analyzeTrendChange [⟨2020, some 30⟩, ⟨2021, some (67/2)⟩]
        = some (117/10) ∧
    (10 : Rat) < 117/10 ∧
    classifyChange (117/10) = .strongIncrease ∧
    analyzeTrendClass [⟨2020, some 30⟩, ⟨2021, some (67/2)⟩]
        = .strongIncrease := by
  have h : analyzeTrendChange [⟨2020, some 30⟩, ⟨2021, some (67/2)⟩]
      = some (117/10) := by
    simp [analyzeTrendChange, jsToFixed1, List.filterMap, List.getLast!]
    norm_num [round_eq]
  have hc : classifyChange (117/10) = .strongIncrease := by
    unfold classifyChange
    norm_num
  refine ⟨h, by norm_num, hc, ?_⟩
  simp only [analyzeTrendClass, h, hc]

/-- C10: a query parameter appears in the request built by `getRecords`
iff the corresponding `params` field is truthy — absent fields, empty
strings and numeric `0` all produce no parameter — and when no field is
truthy the endpoint is the bare `/records` with no query string. -/
theorem C10_getRecords_truthy_query :
    ∀ p : RecordParams,
      ("commune" ∈ queryKeys p ↔ p.commune.truthy = true) ∧
      ("region" ∈ queryKeys p ↔ p.region.truthy = true) ∧
      ("annee" ∈ queryKeys p ↔ p.annee.truthy = true) ∧
      ("page" ∈ queryKeys p ↔ p.page.truthy = true) ∧
      ("page_size" ∈ queryKeys p ↔ p.page_size.truthy = true) ∧
      (p.commune.truthy = false → p.region.truthy = false →
        p.annee.truthy = false → p.page.truthy = false →
        p.page_size.truthy = false →
        getRecordsEndpoint p = "/records") := by
  intro p
  cases hc : p.commune.truthy <;> cases hr : p.region.truthy <;>
    cases ha : p.annee.truthy <;> cases hp : p.page.truthy <;>
    cases hs : p.page_size.truthy <;>
    simp_all [queryKeys, getRecordsQueryList, getRecordsEndpoint, renderQuery,
      String.intercalate]

/-- C10 witness: with `commune = ""`, `region` absent, `annee = 0`,
`page = 0` and `page_size` absent, no parameter is appended and the
endpoint is the bare `/records`. -/
theorem C10_witness :
    ¬ ("page" ∈ queryKeys ⟨.str "", .undef, .num 0, .num 0, .undef⟩) ∧
    getRecordsEndpoint ⟨.str "", .undef, .num 0, .num 0, .undef⟩
      = "/records" := by
  have h := C10_getRecords_truthy_query ⟨.str "", .undef, .num 0, .num 0, .undef⟩
  refine ⟨fun hm => ?_,
    h.2.2.2.2.2 (by decide) (by decide) (by decide) (by decide) (by decide)⟩
  have ht := h.2.2.2.1.mp hm
  simp [JsVal.truthy] at ht

/-- C2: every Filter-field change handler (dashboard region, dashboard
year, data-page region, commune search) sets `pagination.page` to 1 in
its state mutation, and the record fetch it then issues carries
`page = 1`. -/
theorem C2_filter_change_resets_page :
    ∀ (s : AppState) (v : String) (r : Except String RecordsResult),
      (mutateRegion s v).pagination.page = 1 ∧
      (mutateYear s v).pagination.page = 1 ∧
      (mutateCommune s v).pagination.page = 1 ∧
      issuedFetch (onFilterRegionChange s v r)
        = some (recordsParams (mutateRegion s v)) ∧
      issuedFetch (onFilterYearChange s v r)
        = some (recordsParams (mutateYear s v)) ∧
      issuedFetch (onDataRegionChange s v r)
        = some (recordsParams (mutateRegion s v)) ∧
      issuedFetch (onCommuneInput s v r)
        = some (recordsParams (mutateCommune s v)) ∧
      (recordsParams (mutateRegion s v)).page = .num 1 ∧
      (recordsParams (mutateYear s v)).page = .num 1 ∧
      (recordsParams (mutateCommune s v)).page = .num 1 := by
  intro s v r
  refine ⟨rfl, rfl, rfl, ?_, ?_, ?_, ?_, rfl, rfl, rfl⟩ <;> cases r <;> rfl

/-- C3: from any state satisfying `1 ≤ page ≤ ceil(total / pageSize)`,
the previous-page handler never takes the page below 1 and the
next-page handler never takes it above `ceil(total / pageSize)` (both
stay within the interval), and at either boundary the handler returns
the state unchanged and issues no fetch. -/
theorem C3_pagination_clamped :
    ∀ s : AppState, 1 ≤ s.pagination.page →
      s.pagination.page ≤ maxPage s.pagination →
      (1 ≤ (onPrevClick s).1.pagination.page ∧
        (onPrevClick s).1.pagination.page
          ≤ maxPage (onPrevClick s).1.pagination) ∧
      (1 ≤ (onNextClick s).1.pagination.page ∧
        (onNextClick s).1.pagination.page
          ≤ maxPage (onNextClick s).1.pagination) ∧
      (s.pagination.page = 1 → onPrevClick s = (s, false)) ∧
      (s.pagination.page = maxPage s.pagination → onNextClick s = (s, false)) := by
  intro s h1 h2
  have eprev : ∀ pg : Int,
      maxPage { s.pagination with page := pg } = maxPage s.pagination :=
    fun _ => rfl
  refine ⟨?_, ?_, ?_, ?_⟩
  · unfold onPrevClick
    split_ifs with hp
    · simpa [eprev] using ⟨by omega, by omega⟩
    · exact ⟨h1, h2⟩
  · unfold onNextClick
    split_ifs with hn
    · simpa [eprev] using ⟨by omega, by omega⟩
    · exact ⟨h1, h2⟩
  · intro he
    unfold onPrevClick
    split_ifs with hp
    · omega
    · rfl
  · intro he
    unfold onNextClick
    split_ifs with hn
    · omega
    · rfl

/-- C3 witness: at page 2 of 50 records with page size 20
(`ceil(50/20) = 3`), both handlers keep the page within `[1, 3]` and
the boundary no-op clauses hold. -/
theorem C3_witness :
    (1 : Int) ≤ 2 ∧ (2 : Int) ≤ maxPage ⟨2, 20, 50⟩ ∧
    ((1 ≤ (onPrevClick ⟨[], ⟨2, 20, 50⟩, ⟨"", "", ""⟩⟩).1.pagination.page ∧
        (onPrevClick ⟨[], ⟨2, 20, 50⟩, ⟨"", "", ""⟩⟩).1.pagination.page
          ≤ maxPage (onPrevClick ⟨[], ⟨2, 20, 50⟩, ⟨"", "", ""⟩⟩).1.pagination) ∧
      (1 ≤ (onNextClick ⟨[], ⟨2, 20, 50⟩, ⟨"", "", ""⟩⟩).1.pagination.page ∧
        (onNextClick ⟨[], ⟨2, 20, 50⟩, ⟨"", "", ""⟩⟩).1.pagination.page
          ≤ maxPage (onNextClick ⟨[], ⟨2, 20, 50⟩, ⟨"", "", ""⟩⟩).1.pagination) ∧
      ((⟨[], ⟨2, 20, 50⟩, ⟨"", "", ""⟩⟩ : AppState).pagination.page = 1 →
        onPrevClick ⟨[], ⟨2, 20, 50⟩, ⟨"", "", ""⟩⟩
          = (⟨[], ⟨2, 20, 50⟩, ⟨"", "", ""⟩⟩, false)) ∧
      ((⟨[], ⟨2, 20, 50⟩, ⟨"", "", ""⟩⟩ : AppState).pagination.page
          = maxPage (⟨[], ⟨2, 20, 50⟩, ⟨"", "", ""⟩⟩ : AppState).pagination →
        onNextClick ⟨[], ⟨2, 20, 50⟩, ⟨"", "", ""⟩⟩
          = (⟨[], ⟨2, 20, 50⟩, ⟨"", "", ""⟩⟩, false))) :=
  by
  have h3 : maxPage ⟨2, 20, 50⟩ = 3 := by
    norm_num [maxPage, Int.ceil_eq_iff]
  exact ⟨by norm_num, by rw [h3]; norm_num,
    C3_pagination_clamped ⟨[], ⟨2, 20, 50⟩, ⟨"", "", ""⟩⟩ (by norm_num)
      (by show (2 : Int) ≤ maxPage ⟨2, 20, 50⟩; rw [h3]; norm_num)⟩

/-- C4: when the fetch inside `loadRecords` fails, the function still
returns normally (the catch block swallows the exception), the state —
in particular `data` and `pagination.total` — is exactly the previous
one, and a transient error toast is shown. -/
theorem C4_load_failure_preserves_state :
    ∀ (s : AppState) (e : String), ∃ (st : AppState) (effs : List Effect),
      loadRecords s (.error e) = .ok (st, effs) ∧
      st = s ∧ st.data = s.data ∧
      st.pagination.total = s.pagination.total ∧
      Effect.toast .error "Erreur lors du chargement des enregistrements"
        ∈ effs := by
  intro s e
  exact ⟨s, _, rfl, rfl, rfl, rfl, by simp⟩

/-- C5 counterexample: a concrete dashboard region change whose
re-fetch succeeds runs the table, pagination-info, stat-card and chart
renderers but does NOT re-render the map markers, contradicting the
claim that every view depending on Record Page — map markers included —
is re-rendered. -/
theorem C5_counterexample :
    onFilterRegionChange ⟨[], ⟨1, 20, 0⟩, ⟨"", "", ""⟩⟩ "Bretagne"
        (.ok ⟨[], 0⟩)
      = .ok (⟨[], ⟨1, 20, 0⟩, ⟨"Bretagne", "", ""⟩⟩,
          [.fetchRecords ⟨.str "", .str "Bretagne", .str "", .num 1, .num 20⟩,
           .renderTable, .renderPaginationInfo, .renderStatCards,
           .renderCharts]) ∧
    Effect.renderMapMarkers ∉
      ([.fetchRecords ⟨.str "", .str "Bretagne", .str "", .num 1, .num 20⟩,
        .renderTable, .renderPaginationInfo, .renderStatCards,
        .renderCharts] : List Effect) := by
  exact ⟨rfl, by decide⟩

/-- C5 amended: after a successful re-fetch, the dashboard region and
year handlers re-render the table, pagination info, stat cards and
charts; the data-page region and commune handlers re-render only the
table and pagination info; no filter handler re-renders the map
markers, and the Reference-Data-only renderer (filter-option
population) is never re-run. -/
theorem C5_filter_rerenders :
    ∀ (s : AppState) (v : String) (r : RecordsResult),
      (∃ st effs, onFilterRegionChange s v (.ok r) = .ok (st, effs) ∧
        Effect.renderTable ∈ effs ∧ Effect.renderPaginationInfo ∈ effs ∧
        Effect.renderStatCards ∈ effs ∧ Effect.renderCharts ∈ effs ∧
        Effect.renderMapMarkers ∉ effs ∧
        Effect.populateFilterOptions ∉ effs) ∧
      (∃ st effs, onFilterYearChange s v (.ok r) = .ok (st, effs) ∧
        Effect.renderTable ∈ effs ∧ Effect.renderPaginationInfo ∈ effs ∧
        Effect.renderStatCards ∈ effs ∧ Effect.renderCharts ∈ effs ∧
        Effect.renderMapMarkers ∉ effs ∧
        Effect.populateFilterOptions ∉ effs) ∧
      (∃ st effs, onDataRegionChange s v (.ok r) = .ok (st, effs) ∧
        Effect.renderTable ∈ effs ∧ Effect.renderPaginationInfo ∈ effs ∧
        Effect.renderStatCards ∉ effs ∧ Effect.renderCharts ∉ effs ∧
        Effect.renderMapMarkers ∉ effs ∧
        Effect.populateFilterOptions ∉ effs) ∧
      (∃ st effs, onCommuneInput s v (.ok r) = .ok (st, effs) ∧
        Effect.renderTable ∈ effs ∧ Effect.renderPaginationInfo ∈ effs ∧
        Effect.renderStatCards ∉ effs ∧ Effect.renderCharts ∉ effs ∧
        Effect.renderMapMarkers ∉ effs ∧
        Effect.populateFilterOptions ∉ effs) := by
  intro s v r
  refine ⟨⟨_, _, rfl, ?_, ?_, ?_, ?_, ?_, ?_⟩, ⟨_, _, rfl, ?_, ?_, ?_, ?_, ?_, ?_⟩,
    ⟨_, _, rfl, ?_, ?_, ?_, ?_, ?_, ?_⟩, ⟨_, _, rfl, ?_, ?_, ?_, ?_, ?_, ?_⟩⟩ <;>
    simp [loadRecords]

/-- The two records used in the out-of-order-replies scenario. -/
def rennesRec : Record :=
  ⟨1, "Rennes", "Bretagne", 2020, some 30, none, none, none, none, none⟩

/-- See `rennesRec`. -/
def lyonRec : Record :=
  ⟨2, "Lyon", "Auvergne", 2020, some 25, none, none, none, none, none⟩

/-- The final state of the race scenario: the user selects region
"Bretagne" (first fetch issued) and then "Auvergne" (second fetch
issued); the second fetch's reply (`[lyonRec]`) resolves first, then
the first fetch's reply (`[rennesRec]`) resolves — each resolution
running `loadRecords`' post-await assignment. -/
def raceFinalState : AppState :=
  applyLoadResolution
    (applyLoadResolution
      (mutateRegion (mutateRegion ⟨[], ⟨1, 20, 0⟩, ⟨"", "", ""⟩⟩ "Bretagne")
        "Auvergne")
      (.ok ⟨[lyonRec], 1⟩))
    (.ok ⟨[rennesRec], 1⟩)

/-- C1: `loadRecords` carries no sequence number and stores whichever
reply resolves last.  In the two-rapid-filter-changes scenario with
replies resolving out of request order, the rendered Record Page is the
one for the FIRST-issued request ("Bretagne" → `[rennesRec]`) even
though the active filter is the last-issued one ("Auvergne", whose
reply is `[lyonRec]`) — the race-resolution guarantee the claim states
is absent from the code. -/
theorem C1_out_of_order_replies :
    raceFinalState.data = [rennesRec] ∧
    raceFinalState.filters.region = "Auvergne" ∧
    [rennesRec] ≠ [lyonRec] := by
  refine ⟨rfl, rfl, by decide⟩

/-- C6 counterexample: a 500 response whose body carries a PRESENT but
empty `detail` field (`{"detail": ""}`) makes `apiFetch` throw the
generic status message, not the server-provided detail — `errorData.
detail || generic` tests truthiness, not presence. -/
theorem C6_counterexample :
    (apiFetch "/records"
        (.gotResponse 500 (.ok (.jobj [("detail", .jstr "")])))).1
      = .error "HTTP error! status: 500" ∧
    (errorBody (.ok (.jobj [("detail", .jstr "")]))).detailAccess
      = .ok (some (.jstr "")) ∧
    "HTTP error! status: 500" ≠ "" := by
  exact ⟨rfl, rfl, by decide⟩

/-- C6 amended: on a non-success response `apiFetch` throws a failure
whose message is the server-provided `detail` when present and
non-empty (truthy); when the parsed body is JSON `null`, the property
access `errorData.detail` itself throws a `TypeError`, which propagates
instead of either message; otherwise (detail absent, empty, or body
unparseable) the generic status message is thrown; a 204 response
returns the empty result `null`; every failure (server-reported or
network) yields exactly the `console.error` log line carrying the
endpoint identity and is rethrown to the caller. -/
theorem C6_apiFetch_contract :
    ∀ (endpoint : String) (status : Int) (jr : Except String JsonV),
      (respOk status = false → ∀ d : String,
        (errorBody jr).detailAccess = .ok (some (.jstr d)) → d ≠ "" →
        apiFetch endpoint (.gotResponse status jr)
          = (.error d, [apiErrorLog endpoint])) ∧
      (respOk status = false → (errorBody jr).detailAccess = .ok none →
        apiFetch endpoint (.gotResponse status jr)
          = (.error (httpGenericMsg status), [apiErrorLog endpoint])) ∧
      (respOk status = false →
        (errorBody jr).detailAccess = .ok (some (.jstr "")) →
        apiFetch endpoint (.gotResponse status jr)
          = (.error (httpGenericMsg status), [apiErrorLog endpoint])) ∧
      (respOk status = false → jr = .ok .jnull →
        apiFetch endpoint (.gotResponse status jr)
          = (.error typeErrorNullDetail, [apiErrorLog endpoint])) ∧
      (apiFetch endpoint (.gotResponse 204 jr) = (.ok .jnull, [])) ∧
      (∀ m, apiFetch endpoint (.networkFailure m)
          = (.error m, [apiErrorLog endpoint])) ∧
      (∀ (outcome : FetchOutcome) (msg : String),
        (apiFetch endpoint outcome).1 = .error msg →
        (apiFetch endpoint outcome).2 = [apiErrorLog endpoint]) := by
  intro endpoint status jr
  refine ⟨?_, ?_, ?_, ?_, ?_, fun m => rfl, ?_⟩
  · intro h d hd hne
    simp [apiFetch, h, hd, JsonV.truthy, hne, JsonV.asMessage]
  · intro h hd
    simp [apiFetch, h, hd]
  · intro h hd
    simp [apiFetch, h, hd, JsonV.truthy]
  · intro h hj
    subst hj
    simp [apiFetch, h, errorBody, JsonV.detailAccess]
  · rfl
  · intro outcome msg h
    cases outcome with
    | networkFailure m => rfl
    | gotResponse st jjr =>
        by_cases hok : respOk st = true
        · by_cases h204 : st = 204
          · subst h204
            simp [apiFetch, hok] at h
          · cases jjr with
            | ok v => simp [apiFetch, hok, h204] at h
            | error e => simp [apiFetch, hok, h204]
        · cases hda : (errorBody jjr).detailAccess with
          | error te => simp [apiFetch, hok, hda]
          | ok detail => simp [apiFetch, hok, hda]

/-- C6 witness: at endpoint `/records`, a 500 response with body
`{"detail": "Not found"}` makes `apiFetch` rethrow `Not found` and log
the endpoint. -/
theorem C6_witness :
    respOk 500 = false ∧
    (errorBody (.ok (.jobj [("detail", .jstr "Not found")]))).detailAccess
      = .ok (some (.jstr "Not found")) ∧
    ("Not found" : String) ≠ "" ∧
    apiFetch "/records"
        (.gotResponse 500 (.ok (.jobj [("detail", .jstr "Not found")])))
      = (.error "Not found", [apiErrorLog "/records"]) :=
  ⟨by decide, rfl, by decide,
    (C6_apiFetch_contract "/records" 500
        (.ok (.jobj [("detail", .jstr "Not found")]))).1
      (by decide) "Not found" rfl (by decide)⟩

/-- The hexadecimal digits emitted by `percentEncodeByte` are
themselves unreserved characters. -/
theorem toHexDigit_unreserved :
    ∀ n : Nat, n < 16 → isUriUnreserved (toHexDigit n) = true := by
  decide

/-- Every character of a `%XY` byte escape is segment-safe. -/
theorem percentEncodeByte_safe :
    ∀ (b : Nat), ∀ c ∈ percentEncodeByte b, segmentSafeChar c = true := by
  intro b c hc
  simp [percentEncodeByte] at hc
  rcases hc with h | h | h <;> subst h
  · decide
  · have hu := toHexDigit_unreserved (b / 16 % 16)
      (Nat.mod_lt _ (by norm_num))
    simp [segmentSafeChar, hu]
  · have hu := toHexDigit_unreserved (b % 16) (Nat.mod_lt _ (by norm_num))
    simp [segmentSafeChar, hu]

/-- Every character of `encodeURIComponent`'s output is unreserved or a
percent escape: the encoder produces percent-safe path segments. -/
theorem encodeURIComponent_safe :
    ∀ (s : String), ∀ c ∈ (encodeURIComponent s).toList,
      segmentSafeChar c = true := by
  intro s c hc
  simp only [encodeURIComponent, String.toList] at hc
  rw [List.mem_flatMap] at hc
  obtain ⟨a, -, hca⟩ := hc
  by_cases h : isUriUnreserved a = true
  · rw [if_pos h, List.mem_singleton] at hca
    subst hca
    simp [segmentSafeChar, h]
  · rw [if_neg h, List.mem_flatMap] at hca
    obtain ⟨b, -, hcb⟩ := hca
    exact percentEncodeByte_safe b c hcb

/-- C9 counterexample: `getRecordById`, `updateRecord`, `deleteRecord`
and `getPollutantTrend` interpolate the caller-supplied identifier raw:
for the identifier `a b` the URL contains a bare space where the
claimed percent-encoding would have produced `a%20b`. -/
theorem C9_counterexample :
    getRecordByIdEndpoint "a b" = "/records/a b" ∧
    updateRecordEndpoint "a b" = "/records/a b" ∧
    deleteRecordEndpoint "a b" = "/records/a b" ∧
    getPollutantTrendEndpoint "a b" .undef .undef = "/trends/a b" ∧
    encodeURIComponent "a b" = "a%20b" ∧
    ("/records/a b" : String) ≠ "/records/" ++ encodeURIComponent "a b" := by
  refine ⟨rfl, rfl, rfl, ?_, by decide, by decide⟩
  simp [getPollutantTrendEndpoint, renderQuery, String.intercalate,
    JsVal.truthy]

/-- C9 amended: only `getRegionStats` and `getCommuneStats` percent-
encode the identifier they place in a path segment (and the encoder's
output is percent-safe: every character is unreserved or part of a
`%XY` escape); `getRecordById`, `updateRecord`, `deleteRecord` and
`getPollutantTrend` interpolate the caller-supplied identifier
verbatim. -/
theorem C9_path_encoding :
    (∀ region, getRegionStatsEndpoint region none
        = "/stats/region/" ++ encodeURIComponent region) ∧
    (∀ commune, getCommuneStatsEndpoint commune
        = "/stats/commune/" ++ encodeURIComponent commune) ∧
    (∀ s c, c ∈ (encodeURIComponent s).toList → segmentSafeChar c = true) ∧
    (∀ rid, getRecordByIdEndpoint rid = "/records/" ++ rid ∧
      updateRecordEndpoint rid = "/records/" ++ rid ∧
      deleteRecordEndpoint rid = "/records/" ++ rid) ∧
    (∀ pollutant, getPollutantTrendEndpoint pollutant .undef .undef
        = "/trends/" ++ pollutant) := by
  refine ⟨fun region => ?_, fun commune => rfl, encodeURIComponent_safe,
    fun rid => ⟨rfl, rfl, rfl⟩, fun pollutant => ?_⟩
  · simp [getRegionStatsEndpoint]
  · simp [getPollutantTrendEndpoint, renderQuery, String.intercalate,
      JsVal.truthy]

/-- C9 witness: the percent sign of the escape in
`encodeURIComponent "a b" = "a%20b"` is segment-safe. -/
theorem C9_witness :
    ('%' ∈ (encodeURIComponent "a b").toList) ∧
    segmentSafeChar '%' = true :=
  ⟨by decide, C9_path_encoding.2.2.1 "a b" '%' (by decide)⟩

end AirQuality
